import Mathlib

/-!
Shallow embedding of the WoW PvP leaderboard dump tool (src/dumpArena.py) and
verification of its specified properties.  Python strings are modelled as
`List Char` (sequences of Unicode code points) where character-level operations
matter, and as `String` elsewhere; machine integers do not overflow in this
program, so `Nat` is used directly.  Network I/O is modelled by response
oracles passed as arguments, and the mutable client object
(`self.access_token`, `self.character_cache`) by an explicit state record.
-/

namespace DumpArena

/-- Python expression on line 62, applied to one character:
`c.lower() if 'A' <= c <= 'Z' else c`.  Python compares one-character strings
by code point, so the guard is exactly `65 ≤ c ≤ 90`, and `str.lower` maps an
ASCII capital to the code point 32 higher.  Every other character, including
accented letters, is untouched. -/
def pyLowerChar (c : Char) : Char :=
  if 65 ≤ c.toNat ∧ c.toNat ≤ 90 then Char.ofNat (c.toNat + 32) else c

/-- Body of line 62 of the source: the character-wise ASCII-only fold of the
character name (the `lowercase_name` local). -/
def pyLower (s : List Char) : List Char := s.map pyLowerChar

/-- UTF-8 encoding of one code point, as Python's `str.encode('utf-8')`
produces it inside `urllib.parse.quote`. -/
def utf8Bytes (c : Char) : List Nat :=
  let n := c.toNat
  if n < 128 then [n]
  else if n < 2048 then [192 + n / 64, 128 + n % 64]
  else if n < 65536 then [224 + n / 4096, 128 + n / 64 % 64, 128 + n % 64]
  else [240 + n / 262144, 128 + n / 4096 % 64, 128 + n / 64 % 64, 128 + n % 64]

/-- Bytes that `requests.utils.quote` (= `urllib.parse.quote` with its default
`safe='/'`) leaves unescaped: ASCII letters, digits, `_`, `.`, `-`, `~`, `/`. -/
def quoteSafeByte (b : Nat) : Bool :=
  (65 ≤ b && b ≤ 90) || (97 ≤ b && b ≤ 122) || (48 ≤ b && b ≤ 57) ||
    b == 45 || b == 46 || b == 95 || b == 126 || b == 47

/-- Uppercase hexadecimal digit, as Python's quoter emits in `%XX` escapes. -/
def hexUpper (n : Nat) : Char :=
  if n < 10 then Char.ofNat (48 + n) else Char.ofNat (55 + n)

/-- Percent-encoding of a single byte: safe bytes stand for themselves, every
other byte becomes a three-character `%XX` escape. -/
def quoteByte (b : Nat) : List Char :=
  if quoteSafeByte b then [Char.ofNat b] else ['%', hexUpper (b / 16), hexUpper (b % 16)]

/-- Model of `requests.utils.quote` on line 63: encode the code points to
UTF-8 and percent-encode each byte. -/
def pyQuote (s : List Char) : List Char := (s.flatMap utf8Bytes).flatMap quoteByte

/-- Name-normalisation half of the cache-key derivation (lines 62-63):
ASCII-only lowercasing followed by percent-encoding; this is the
`encoded_name` local of `fetch_character_details`. -/
def normName (s : List Char) : List Char := pyQuote (pyLower s)

/-- Cache-key derivation of line 64, `f"{realm_slug}:{encoded_name}"`, at the
level of code-point sequences. -/
def cacheKeyL (realm name : List Char) : List Char := realm ++ ':' :: normName name

/-- Character-level version of `quoteSafeByte`: the character is an ASCII
character that percent-encoding passes through unchanged. -/
def quoteSafeChar (c : Char) : Bool := quoteSafeByte c.toNat

/-- String-level form of the `encoded_name` local computed on lines 62-63. -/
def encoded_name_of (character_name : String) : String :=
  String.mk (normName character_name.toList)

/-- String-level form of the `cache_key` local computed on line 64. -/
def cache_key_of (realm_slug character_name : String) : String :=
  realm_slug ++ ":" ++ encoded_name_of character_name

/-- Value of `self.available_brackets` set on line 17. -/
def available_brackets : List String := ["2v2", "3v3", "5v5", "rbg"]

/-- Model of `get_available_brackets_for_season` (lines 232-239). -/
def get_available_brackets_for_season (season : Nat) : List String :=
  if season < 9 then ["2v2", "3v3", "5v5"] else ["2v2", "3v3", "5v5", "rbg"]

/-- Model of `get_api_url` (lines 47-56). -/
def get_api_url (season : Nat) (bracket : String) : String :=
  let base_url := "https://tw.api.blizzard.com/data/wow"
  if 9 ≤ season then
    base_url ++ "/pvp-season/" ++ toString season ++ "/pvp-leaderboard/" ++ bracket
  else
    base_url ++ "/pvp-region/0/pvp-season/" ++ toString season ++ "/pvp-leaderboard/" ++ bracket

/-- Observable parts of the leaderboard HTTP GET issued on line 191:
URL, the Authorization header, and the two query parameters (the `namespace`
query parameter is stored in `namespaceParam`, since `namespace` is a Lean
keyword). -/
structure LeaderboardRequest where
  url : String
  authorization : String
  namespaceParam : String
  locale : String
deriving Repr, DecidableEq

/-- The request `fetch_bracket_data` assembles on lines 177-191.  The first
argument is `self.region`, the region the client was configured with on
line 14; it does not occur in the body because the source hardcodes both the
host (line 49) and the namespace (line 184) to `tw`. -/
def leaderboard_request (region : String) (access_token : String) (season : Nat)
    (bracket : String) : LeaderboardRequest :=
  { url := get_api_url season bracket
    authorization := "Bearer " ++ access_token
    namespaceParam := "dynamic-classic-tw"
    locale := "en_TW" }

/-- Decoded body of the OAuth token response: either JSON decoding raises
(`malformed`) or it yields an object whose `access_token` field may be absent. -/
inductive OAuthBody where
  | malformed
  | parsed (access_token : Option String)
deriving Repr, DecidableEq

/-- Outcome of the `requests.post` on line 26: an HTTP response with a status
code and a body, or a transport-level exception. -/
inductive OAuthResponse where
  | http (status_code : Nat) (body : OAuthBody)
  | transportError
deriving Repr, DecidableEq

/-- Model of `get_access_token` (lines 20-45).  The function consumes exactly
one response — the source issues a single POST and never retries.  The result
is the value stored in `self.access_token`; `some` corresponds to the Python
function returning `True`, `none` to `False` (every non-200 status, a body
without `access_token`, a JSON decode error, and any transport exception all
fall through to `return False`). -/
def get_access_token (resp : OAuthResponse) : Option String :=
  match resp with
  | .transportError => none
  | .http status_code body =>
    if status_code ≠ 200 then none
    else
      match body with
      | .malformed => none
      | .parsed (some tok) => some tok
      | .parsed none => none

/-- Fields of interest of a character-profile response body (`character_class`
and `race` keys of the decoded JSON; `none` models an absent key). -/
structure CharacterDetails where
  character_class : Option String
  race : Option String
deriving Repr, DecidableEq

/-- A `character` object inside a leaderboard entry: its `name` key, its
`realm.slug` key (either may be absent), and the `playable_class` /
`playable_race` keys that enrichment adds. -/
structure CharacterData where
  name : Option String
  realm_slug : Option String
  playable_class : Option String
  playable_race : Option String
deriving Repr, DecidableEq

/-- Mutable state of the `WoWPvPLeaderboard` client: `self.access_token`
(line 15) and `self.character_cache` (line 18).  The cache dict is modelled as
an association list with the most recent insertion in front. -/
structure CharState where
  access_token : Option String
  character_cache : List (String × CharacterDetails)
deriving Repr, DecidableEq

/-- Dictionary lookup in the cache association list. -/
def cacheLookup : List (String × CharacterDetails) → String → Option CharacterDetails
  | [], _ => none
  | (k, v) :: rest, key => if k = key then some v else cacheLookup rest key

/-- Oracle for the character-profile endpoint of line 77: the realm slug and
the encoded name determine the URL; `some` is an HTTP 200 response with the
decoded profile, `none` is any other status code or a transport exception. -/
abbrev CharNet := String → String → Option CharacterDetails

/-- Model of `fetch_character_details` (lines 59-102).  Returns the profile
(`none` on every failure path), the updated client state, and the number of
character-profile HTTP requests issued (0 or 1). -/
def fetch_character_details (net : CharNet) (st : CharState)
    (realm_slug character_name : String) :
    Option CharacterDetails × CharState × Nat :=
  let encoded_name := encoded_name_of character_name
  let cache_key := realm_slug ++ ":" ++ encoded_name
  match cacheLookup st.character_cache cache_key with
  | some cached => (some cached, st, 0)
  | none =>
    match st.access_token with
    | none => (none, st, 0)
    | some _ =>
      match net realm_slug encoded_name with
      | some data =>
        (some data, { st with character_cache := (cache_key, data) :: st.character_cache }, 1)
      | none => (none, st, 1)

/-- Model of `enrich_character_data` (lines 104-126).  Python's guard
`if not character_name` treats a missing `name` key and an empty name string
the same way: the record is returned unchanged without a lookup. -/
def enrich_character_data (net : CharNet) (st : CharState) (character_data : CharacterData)
    (realm_slug : String) : CharacterData × CharState × Nat :=
  match character_data.name with
  | none => (character_data, st, 0)
  | some character_name =>
    if character_name.isEmpty then (character_data, st, 0)
    else
      let r := fetch_character_details net st realm_slug character_name
      match r.1 with
      | some details =>
        let cd1 := match details.character_class with
          | some v => { character_data with playable_class := some v }
          | none => character_data
        let cd2 := match details.race with
          | some v => { cd1 with playable_race := some v }
          | none => cd1
        (cd2, r.2.1, r.2.2)
      | none => (character_data, r.2.1, r.2.2)

/-- One leaderboard entry (lines 138-148): a Season 9+ solo record with a
`character` key, a Season 8- team record whose members may each carry a
`character` key (`none` models a member without one), or an entry with
neither key, which is appended unchanged. -/
inductive LBEntry where
  | solo (character : CharacterData)
  | team (members : List (Option CharacterData))
  | other
deriving Repr, DecidableEq

/-- Realm-slug extraction of lines 140 and 147:
`entry['character'].get('realm', {}).get('slug', 'unknown')`. -/
def realmSlugOf (character : CharacterData) : String :=
  character.realm_slug.getD "unknown"

/-- Enrichment of one team member (lines 145-148). -/
def enrichMember (net : CharNet) (st : CharState) :
    Option CharacterData → Option CharacterData × CharState × Nat
  | none => (none, st, 0)
  | some cd =>
    let r := enrich_character_data net st cd (realmSlugOf cd)
    (some r.1, r.2.1, r.2.2)

/-- Enrichment of a team's member list, front to back. -/
def enrichMembers (net : CharNet) :
    CharState → List (Option CharacterData) → List (Option CharacterData) × CharState × Nat
  | st, [] => ([], st, 0)
  | st, m :: ms =>
    let r := enrichMember net st m
    let rs := enrichMembers net r.2.1 ms
    (r.1 :: rs.1, rs.2.1, r.2.2 + rs.2.2)

/-- Enrichment of one leaderboard entry (lines 135-150). -/
def processEntry (net : CharNet) (st : CharState) : LBEntry → LBEntry × CharState × Nat
  | .solo cd =>
    let r := enrich_character_data net st cd (realmSlugOf cd)
    (.solo r.1, r.2.1, r.2.2)
  | .team ms =>
    let r := enrichMembers net st ms
    (.team r.1, r.2.1, r.2.2)
  | .other => (.other, st, 0)

/-- Model of `process_entries_with_character_details` (lines 128-158): walk
the entries in order, threading the client state and summing the number of
character-profile requests. -/
def process_entries_with_character_details (net : CharNet) :
    CharState → List LBEntry → List LBEntry × CharState × Nat
  | st, [] => ([], st, 0)
  | st, e :: es =>
    let r := processEntry net st e
    let rs := process_entries_with_character_details net r.2.1 es
    (r.1 :: rs.1, rs.2.1, r.2.2 + rs.2.2)

/-- A decoded leaderboard payload: whether the object carries a vendor `error`
key (line 204), and its `entries` sequence (line 208; an absent `entries` key
and an empty one both read back as `[]` through `data.get('entries', [])`). -/
structure BracketPayload where
  hasError : Bool
  entries : List LBEntry
deriving Repr, DecidableEq

/-- Body of a leaderboard HTTP response: whitespace-only text (line 198),
text that fails JSON decoding (line 225), or a decoded payload. -/
inductive BodyContent where
  | empty
  | malformed
  | parsed (data : BracketPayload)
deriving Repr, DecidableEq

/-- Outcome of the `requests.get` on line 191: a status code with a body, a
timeout (line 219), or a connection error (line 222). -/
inductive FetchResponse where
  | http (status_code : Nat) (body : BodyContent)
  | timeout
  | connectionError
deriving Repr, DecidableEq

/-- Model of `fetch_bracket_data` (lines 160-230).  The consumed `resp` is the
single leaderboard request; the `Nat` component counts character-profile
requests issued during enrichment.  Every failure path returns `none` — the
Python function catches every exception class it can encounter and converts it
to `return None`, so the model is a total function. -/
def fetch_bracket_data (net : CharNet) (st : CharState) (bracket : String) (season : Nat)
    (enrich_data : Bool) (resp : FetchResponse) : Option BracketPayload × CharState × Nat :=
  match st.access_token with
  | none => (none, st, 0)
  | some _ =>
    if season < 9 ∧ bracket = "rbg" then (none, st, 0)
    else if bracket ∉ available_brackets then (none, st, 0)
    else
      match resp with
      | .timeout => (none, st, 0)
      | .connectionError => (none, st, 0)
      | .http status_code body =>
        if status_code ≠ 200 then (none, st, 0)
        else
          match body with
          | .empty => (none, st, 0)
          | .malformed => (none, st, 0)
          | .parsed data =>
            if data.hasError then (none, st, 0)
            else
              if enrich_data ∧ 0 < data.entries.length then
                let r := process_entries_with_character_details net st data.entries
                (some { data with entries := r.1 }, r.2.1, r.2.2)
              else (some data, st, 0)

/-- Bracket filter of line 346:
`[bracket for bracket in selected_brackets if bracket in available_brackets]`. -/
def seasonBrackets (season : Nat) (selected_brackets : List String) : List String :=
  selected_brackets.filter fun b => decide (b ∈ get_available_brackets_for_season season)

/-- Loop body of `process_single_season` (lines 359-375), folded over a
bracket list.  `resp` gives each bracket's leaderboard response and `save`
the filename `save_raw_data` returns for it (`""` models the exception path
of lines 255-257, which Python then treats as falsy on line 369). -/
def process_bracket_list (net : CharNet) (resp : String → FetchResponse)
    (save : String → String) (season : Nat) (enrich_data : Bool) :
    CharState → List String → Nat × CharState
  | st, [] => (0, st)
  | st, bracket :: rest =>
    let r := fetch_bracket_data net st bracket season enrich_data (resp bracket)
    let succ : Nat :=
      match r.1 with
      | some _ => if save bracket = "" then 0 else 1
      | none => 0
    let rs := process_bracket_list net resp save season enrich_data r.2.1 rest
    (succ + rs.1, rs.2)

/-- Model of `process_single_season` (lines 338-378): filter the selected
brackets by season availability, process each in order, and return
`success_count` (the early `return 0` for an empty filtered list coincides
with folding over `[]`). -/
def process_single_season (net : CharNet) (resp : String → FetchResponse)
    (save : String → String) (season : Nat) (selected_brackets : List String)
    (enrich_data : Bool) (st : CharState) : Nat × CharState :=
  process_bracket_list net resp save season enrich_data st
    (seasonBrackets season selected_brackets)

/-- Season loop of `main` (lines 437-444): accumulates `total_success` and
`total_possible`, where the attempted count for a season is the length of its
filtered bracket list. -/
def run_seasons (net : CharNet) (resp : Nat → String → FetchResponse)
    (save : Nat → String → String) (selected_brackets : List String) (enrich_data : Bool) :
    CharState → List Nat → Nat × Nat × CharState
  | st, [] => (0, 0, st)
  | st, season :: rest =>
    let r := process_single_season net (resp season) (save season) season
      selected_brackets enrich_data st
    let possible := (seasonBrackets season selected_brackets).length
    let rs := run_seasons net resp save selected_brackets enrich_data r.2 rest
    (r.1 + rs.1, possible + rs.2.1, rs.2.2)

/-- Test fixture: a character-profile endpoint that always fails (non-200 or
transport error for every character). -/
def netNone : CharNet := fun _ _ => none

/-- Test fixture: a mage profile response. -/
def detailsMage : CharacterDetails := { character_class := some "Mage", race := some "Human" }

/-- Test fixture: a character-profile endpoint that always answers 200 with a
mage profile. -/
def netMage : CharNet := fun _ _ => some detailsMage

/-- Test fixture: client state holding a token and an empty cache, as after a
successful `get_access_token` at the start of a run. -/
def stTok : CharState := { access_token := some "tok", character_cache := [] }

/-- Iterated enrichment of one (realm slug, character name) pair: k successive
calls to `fetch_character_details`, collecting the results in order, threading
the client state, and summing the character-profile request counts.  This is
what repeated leaderboard entries referencing the same character produce. -/
def fetchRepeat (net : CharNet) (realm_slug character_name : String) :
    Nat → CharState → List (Option CharacterDetails) × CharState × Nat
  | 0, st => ([], st, 0)
  | k + 1, st =>
    let r := fetch_character_details net st realm_slug character_name
    let rs := fetchRepeat net realm_slug character_name k r.2.1
    (r.1 :: rs.1, rs.2.1, r.2.2 + rs.2.2)

/-- Test fixture: a character reference as it appears in a leaderboard entry. -/
def cdArthas : CharacterData :=
  { name := some "Arthas", realm_slug := some "dreadmist",
    playable_class := none, playable_race := none }

/-- Test fixture: a successful payload with an empty entries sequence. -/
def payloadEmpty : BracketPayload := { hasError := false, entries := [] }

/-- Test fixture: a successful payload with three entries. -/
def payload3 : BracketPayload :=
  { hasError := false, entries := [LBEntry.other, LBEntry.solo cdArthas, LBEntry.other] }

/-- Test fixture: every leaderboard request times out. -/
def respTimeout : String → FetchResponse := fun _ => FetchResponse.timeout

/-- Test fixture: persistence always fails (empty filename). -/
def saveEmpty : String → String := fun _ => ""

end DumpArena

namespace DumpArena

theorem toNat_ofNat_of_bounds (n : Nat) (h1 : 97 ≤ n) (h2 : n ≤ 122) :
    (Char.ofNat n).toNat = n := by
  interval_cases n <;> decide

theorem pyLowerChar_idem (c : Char) : pyLowerChar (pyLowerChar c) = pyLowerChar c := by
  unfold pyLowerChar
  by_cases h : 65 ≤ c.toNat ∧ c.toNat ≤ 90
  · rw [if_pos h]
    have ht : (Char.ofNat (c.toNat + 32)).toNat = c.toNat + 32 :=
      toNat_ofNat_of_bounds _ (by omega) (by omega)
    rw [if_neg (by omega)]
  · rw [if_neg h, if_neg h]

theorem pyLower_idem (s : List Char) : pyLower (pyLower s) = pyLower s := by
  unfold pyLower
  rw [List.map_map]
  exact List.map_congr_left fun c _ => pyLowerChar_idem c

theorem quoteSafeByte_lt (b : Nat) (h : quoteSafeByte b = true) : b < 128 := by
  simp only [quoteSafeByte, Bool.or_eq_true, Bool.and_eq_true, decide_eq_true_eq,
    beq_iff_eq] at h
  omega

theorem quoteSafeChar_pyLowerChar (c : Char) (h : quoteSafeChar c = true) :
    quoteSafeChar (pyLowerChar c) = true := by
  unfold pyLowerChar
  by_cases hc : 65 ≤ c.toNat ∧ c.toNat ≤ 90
  · rw [if_pos hc]
    have ht : (Char.ofNat (c.toNat + 32)).toNat = c.toNat + 32 :=
      toNat_ofNat_of_bounds _ (by omega) (by omega)
    simp only [quoteSafeChar, quoteSafeByte, ht, Bool.or_eq_true, Bool.and_eq_true,
      decide_eq_true_eq, beq_iff_eq]
    omega
  · rw [if_neg hc]
    exact h

theorem utf8Bytes_safe (c : Char) (h : quoteSafeChar c = true) :
    utf8Bytes c = [c.toNat] := by
  have := quoteSafeByte_lt c.toNat h
  simp only [utf8Bytes]
  rw [if_pos this]

theorem quoteByte_safe (c : Char) (h : quoteSafeChar c = true) :
    quoteByte c.toNat = [c] := by
  unfold quoteByte
  unfold quoteSafeChar at h
  rw [if_pos h, Char.ofNat_toNat]

theorem pyQuote_safe (s : List Char) (h : ∀ c ∈ s, quoteSafeChar c = true) :
    pyQuote s = s := by
  induction s with
  | nil => rfl
  | cons c cs ih =>
    have hc := h c (List.mem_cons_self c cs)
    have hcs := ih fun x hx => h x (List.mem_cons_of_mem c hx)
    simp only [pyQuote, List.flatMap_cons, List.flatMap_append] at *
    rw [utf8Bytes_safe c hc]
    simp only [List.flatMap_cons, List.flatMap_nil, List.append_nil]
    rw [quoteByte_safe c hc, hcs]
    rfl

theorem normName_safe (s : List Char) (h : ∀ c ∈ s, quoteSafeChar c = true) :
    normName s = pyLower s := by
  unfold normName
  refine pyQuote_safe _ fun c hc => ?_
  obtain ⟨a, ha, rfl⟩ := List.mem_map.1 hc
  exact quoteSafeChar_pyLowerChar a (h a ha)

/-- C1: the claim as stated is false on the code.  Name normalisation
(ASCII-only lowercasing, then percent-encoding) is not idempotent on
"Arthàs" — the first pass escapes the à to `%C3%A0` and a second pass both
lowercases the hex digits and re-escapes the `%` signs — and "Arthàs" and
"arthàs" derive the SAME cache key, not distinct ones: the two names differ
only in the ASCII letter A/a, which the fold does normalise; the untouched à
is identical in both. -/
theorem C1_counterexample :
    normName (normName ['A', 'r', 't', 'h', 'à', 's']) ≠
      normName ['A', 'r', 't', 'h', 'à', 's'] ∧
    cacheKeyL ['r'] ['A', 'r', 't', 'h', 'à', 's'] =
      cacheKeyL ['r'] ['a', 'r', 't', 'h', 'à', 's'] := by
  constructor
  · decide
  · decide

/-- C1 (amended): the cache-key derivation case-folds only ASCII letters, so
"ARTHAS" and "arthas" map to the same key, and — contrary to the original
claim — so do "Arthàs" and "arthàs" (they differ only in the folded ASCII
letter A; the untouched à cannot distinguish them, though "arthÀs" with a
non-ASCII capital À is distinct from "arthàs").  Name normalisation is
idempotent only on names whose characters percent-encoding passes through
unchanged (ASCII letters, digits, and `_.-~/`). -/
theorem C1_amended :
    (∀ name : List Char, (∀ c ∈ name, quoteSafeChar c = true) →
      normName (normName name) = normName name) ∧
    (∀ realm : List Char,
      cacheKeyL realm ['A', 'R', 'T', 'H', 'A', 'S'] =
        cacheKeyL realm ['a', 'r', 't', 'h', 'a', 's'] ∧
      cacheKeyL realm ['A', 'r', 't', 'h', 'à', 's'] =
        cacheKeyL realm ['a', 'r', 't', 'h', 'à', 's'] ∧
      cacheKeyL realm ['a', 'r', 't', 'h', 'À', 's'] ≠
        cacheKeyL realm ['a', 'r', 't', 'h', 'à', 's']) := by
  constructor
  · intro name h
    have h2 : ∀ c ∈ pyLower name, quoteSafeChar c = true := by
      intro c hc
      obtain ⟨a, ha, rfl⟩ := List.mem_map.1 hc
      exact quoteSafeChar_pyLowerChar a (h a ha)
    rw [normName_safe name h, normName_safe (pyLower name) h2, pyLower_idem]
  · intro realm
    refine ⟨?_, ?_, ?_⟩
    · unfold cacheKeyL
      rw [show normName ['A', 'R', 'T', 'H', 'A', 'S'] =
        normName ['a', 'r', 't', 'h', 'a', 's'] from by decide]
    · unfold cacheKeyL
      rw [show normName ['A', 'r', 't', 'h', 'à', 's'] =
        normName ['a', 'r', 't', 'h', 'à', 's'] from by decide]
    · unfold cacheKeyL
      intro h
      have := List.append_cancel_left h
      have := List.cons_injective this
      revert this
      decide

/-- Witness for C1 (amended): instantiated on the name "Arthas-1" (all safe
characters) and the realm slug "r". -/
theorem C1_witness :
    normName (normName ['A', 'r', 't', 'h', 'a', 's', '-', '1']) =
      normName ['A', 'r', 't', 'h', 'a', 's', '-', '1'] ∧
    cacheKeyL ['r'] ['A', 'R', 'T', 'H', 'A', 'S'] =
      cacheKeyL ['r'] ['a', 'r', 't', 'h', 'a', 's'] :=
  ⟨C1_amended.1 ['A', 'r', 't', 'h', 'a', 's', '-', '1'] (by decide),
    (C1_amended.2 ['r']).1⟩

/-- C2: for every season below 9 the available brackets are exactly
2v2, 3v3 and 5v5 (no rbg); from season 9 on, rbg is included. -/
theorem C2_theorem (season : Nat) :
    (season < 9 → get_available_brackets_for_season season = ["2v2", "3v3", "5v5"]) ∧
    (9 ≤ season → get_available_brackets_for_season season = ["2v2", "3v3", "5v5", "rbg"]) := by
  unfold get_available_brackets_for_season
  constructor
  · intro h
    rw [if_pos h]
  · intro h
    rw [if_neg (by omega)]

/-- Witness for C2 at seasons 8 and 9. -/
theorem C2_witness :
    get_available_brackets_for_season 8 = ["2v2", "3v3", "5v5"] ∧
    get_available_brackets_for_season 9 = ["2v2", "3v3", "5v5", "rbg"] :=
  ⟨(C2_theorem 8).1 (by decide), (C2_theorem 9).2 (by decide)⟩

/-- C7: the claim as stated is false on the code.  A client configured with
region "us" still sends its leaderboard requests with the query parameter
`namespace=dynamic-classic-tw` (hardcoded on line 184), not
`dynamic-classic-us`: the configured region is only used for the OAuth host. -/
theorem C7_counterexample :
    (leaderboard_request "us" "tok" 10 "2v2").namespaceParam ≠
      "dynamic-classic-" ++ "us" := by
  decide

/-- C7 (amended): for every configured region, a leaderboard request
(season ≥ 9) is sent with the namespace query parameter equal to the constant
`dynamic-classic-tw` — regardless of the configured region — together with
locale `en_TW` and bearer authorization. -/
theorem C7_amended (region access_token : String) (season : Nat) (bracket : String)
    (h : 9 ≤ season) :
    (leaderboard_request region access_token season bracket).namespaceParam =
      "dynamic-classic-tw" ∧
    (leaderboard_request region access_token season bracket).locale = "en_TW" ∧
    (leaderboard_request region access_token season bracket).authorization =
      "Bearer " ++ access_token :=
  ⟨rfl, rfl, rfl⟩

/-- Witness for C7 (amended) at region "us", season 10, bracket 3v3. -/
theorem C7_witness :
    (leaderboard_request "us" "tok" 10 "3v3").namespaceParam = "dynamic-classic-tw" ∧
    (leaderboard_request "us" "tok" 10 "3v3").locale = "en_TW" ∧
    (leaderboard_request "us" "tok" 10 "3v3").authorization = "Bearer " ++ "tok" :=
  C7_amended "us" "tok" 10 "3v3" (by decide)

/-- C8: URL resolution is a pure function of season and bracket: from season 9
on it yields the season-scoped path, below 9 the legacy region-scoped path
with the region index hardcoded to 0, and identical inputs always produce
identical URLs. -/
theorem C8_theorem (season : Nat) (bracket : String) :
    (9 ≤ season → get_api_url season bracket =
      "https://tw.api.blizzard.com/data/wow" ++ "/pvp-season/" ++ toString season ++
        "/pvp-leaderboard/" ++ bracket) ∧
    (season < 9 → get_api_url season bracket =
      "https://tw.api.blizzard.com/data/wow" ++ "/pvp-region/0/pvp-season/" ++
        toString season ++ "/pvp-leaderboard/" ++ bracket) ∧
    (∀ season2 bracket2, season2 = season → bracket2 = bracket →
      get_api_url season2 bracket2 = get_api_url season bracket) := by
  refine ⟨fun h => ?_, fun h => ?_, fun s2 b2 hs hb => by rw [hs, hb]⟩
  · unfold get_api_url
    rw [if_pos h]
  · unfold get_api_url
    rw [if_neg (by omega)]

/-- Witness for C8 at seasons 12 and 6, bracket 2v2. -/
theorem C8_witness :
    get_api_url 12 "2v2" =
      "https://tw.api.blizzard.com/data/wow" ++ "/pvp-season/" ++ toString 12 ++
        "/pvp-leaderboard/" ++ "2v2" ∧
    get_api_url 6 "2v2" =
      "https://tw.api.blizzard.com/data/wow" ++ "/pvp-region/0/pvp-season/" ++
        toString 6 ++ "/pvp-leaderboard/" ++ "2v2" :=
  ⟨(C8_theorem 12 "2v2").1 (by decide), (C8_theorem 6 "2v2").2.1 (by decide)⟩

/-- C9: token acquisition succeeds exactly when the OAuth response has HTTP
status 200 and its decoded body carries an `access_token` field; any other
status code, malformed body, missing field, or transport error yields a
failure.  The model consumes a single response — the source never retries
internally. -/
theorem C9_theorem (resp : OAuthResponse) :
    ((get_access_token resp).isSome = true ↔
      ∃ tok, resp = OAuthResponse.http 200 (OAuthBody.parsed (some tok))) ∧
    (∀ tok, get_access_token (OAuthResponse.http 200 (OAuthBody.parsed (some tok))) =
      some tok) := by
  constructor
  · cases resp with
    | transportError => simp [get_access_token]
    | http status_code body =>
      by_cases hc : status_code = 200
      · subst hc
        cases body with
        | malformed => simp [get_access_token]
        | parsed tok =>
          cases tok with
          | none => simp [get_access_token]
          | some t => simp [get_access_token]
      · cases body <;> simp [get_access_token, hc]
  · intro tok
    rfl

/-- Witness for C9 at a concrete rejected response and the accepted shape. -/
theorem C9_witness :
    ((get_access_token (OAuthResponse.http 401 (OAuthBody.parsed (some "t")))).isSome = true ↔
      ∃ tok, OAuthResponse.http 401 (OAuthBody.parsed (some "t")) =
        OAuthResponse.http 200 (OAuthBody.parsed (some tok))) ∧
    (∀ tok, get_access_token (OAuthResponse.http 200 (OAuthBody.parsed (some tok))) =
      some tok) :=
  C9_theorem (OAuthResponse.http 401 (OAuthBody.parsed (some "t")))

theorem fetch_character_details_hit (net : CharNet) (st : CharState)
    (realm_slug character_name : String) (v : CharacterDetails)
    (h : cacheLookup st.character_cache (cache_key_of realm_slug character_name) = some v) :
    fetch_character_details net st realm_slug character_name = (some v, st, 0) := by
  unfold cache_key_of at h
  simp only [fetch_character_details, h]

theorem fetch_character_details_miss_ok (net : CharNet) (st : CharState)
    (realm_slug character_name tok : String) (d : CharacterDetails)
    (hmiss : cacheLookup st.character_cache (cache_key_of realm_slug character_name) = none)
    (htok : st.access_token = some tok)
    (hnet : net realm_slug (encoded_name_of character_name) = some d) :
    fetch_character_details net st realm_slug character_name =
      (some d,
       { st with character_cache :=
          (cache_key_of realm_slug character_name, d) :: st.character_cache },
       1) := by
  unfold cache_key_of at hmiss ⊢
  simp only [fetch_character_details, hmiss, htok, hnet]

theorem fetch_character_details_miss_fail (net : CharNet) (st : CharState)
    (realm_slug character_name tok : String)
    (hmiss : cacheLookup st.character_cache (cache_key_of realm_slug character_name) = none)
    (htok : st.access_token = some tok)
    (hnet : net realm_slug (encoded_name_of character_name) = none) :
    fetch_character_details net st realm_slug character_name = (none, st, 1) := by
  unfold cache_key_of at hmiss
  simp only [fetch_character_details, hmiss, htok, hnet]

theorem fetchRepeat_cached (net : CharNet) (st : CharState)
    (realm_slug character_name : String) (d : CharacterDetails) (k : Nat)
    (h : cacheLookup st.character_cache (cache_key_of realm_slug character_name) = some d) :
    fetchRepeat net realm_slug character_name k st =
      (List.replicate k (some d), st, 0) := by
  induction k with
  | zero => rfl
  | succ n ih =>
    simp only [fetchRepeat, fetch_character_details_hit net st realm_slug character_name d h,
      ih, List.replicate_succ]

/-- C3: the claim as stated is false on the code.  When the first
character-profile lookup fails (any non-200 status or transport error),
nothing is cached, so enriching the same (realm, name) pair twice issues two
network calls, not exactly one. -/
theorem C3_counterexample :
    (fetchRepeat netNone "dreadmist" "Arthas" 2 stTok).2.2 ≠ 1 := by
  decide

/-- C3 (amended): if the pair is not yet cached, a token is present, and the
first character-profile call returns HTTP 200, then any number of further
enrichments of the same (realm slug, character name) pair are served from the
cache: every result equals the first and exactly one network call is issued
in total, no matter how many entries reference the character. -/
theorem C3_amended (net : CharNet) (st : CharState)
    (realm_slug character_name tok : String) (d : CharacterDetails) (k : Nat)
    (hmiss : cacheLookup st.character_cache (cache_key_of realm_slug character_name) = none)
    (htok : st.access_token = some tok)
    (hnet : net realm_slug (encoded_name_of character_name) = some d) :
    fetchRepeat net realm_slug character_name (k + 1) st =
      (List.replicate (k + 1) (some d),
       { st with character_cache :=
          (cache_key_of realm_slug character_name, d) :: st.character_cache },
       1) := by
  have h1 := fetch_character_details_miss_ok net st realm_slug character_name tok d
    hmiss htok hnet
  have h2 : cacheLookup
      ((cache_key_of realm_slug character_name, d) :: st.character_cache)
      (cache_key_of realm_slug character_name) = some d := by
    simp [cacheLookup]
  simp only [fetchRepeat, h1]
  rw [fetchRepeat_cached net _ realm_slug character_name d k h2]
  simp [List.replicate_succ]

/-- Witness for C3 (amended): a fresh state, a working profile endpoint, and
three successive enrichments of the same character. -/
theorem C3_witness :
    fetchRepeat netMage "dreadmist" "Arthas" 3 stTok =
      (List.replicate 3 (some detailsMage),
       { stTok with character_cache :=
          (cache_key_of "dreadmist" "Arthas", detailsMage) :: stTok.character_cache },
       1) :=
  C3_amended netMage stTok "dreadmist" "Arthas" "tok" detailsMage 2 rfl rfl rfl

/-- C10: a failed character lookup (non-200 status or transport exception,
both modelled by the oracle answering `none`) returns no details, leaves the
cache — indeed the whole client state — unchanged, and issues one call; a
second enrichment of the same pair therefore issues a fresh network call
(two calls across the two enrichments) instead of returning a memoized
failure. -/
theorem C10_theorem (net : CharNet) (st : CharState)
    (realm_slug character_name tok : String)
    (hmiss : cacheLookup st.character_cache (cache_key_of realm_slug character_name) = none)
    (htok : st.access_token = some tok)
    (hnet : net realm_slug (encoded_name_of character_name) = none) :
    fetch_character_details net st realm_slug character_name = (none, st, 1) ∧
    fetchRepeat net realm_slug character_name 2 st = ([none, none], st, 2) := by
  have h1 := fetch_character_details_miss_fail net st realm_slug character_name tok
    hmiss htok hnet
  refine ⟨h1, ?_⟩
  simp only [fetchRepeat, h1]

/-- Witness for C10: the always-failing endpoint, a fresh state. -/
theorem C10_witness :
    fetch_character_details netNone stTok "dreadmist" "Arthas" = (none, stTok, 1) ∧
    fetchRepeat netNone "dreadmist" "Arthas" 2 stTok = ([none, none], stTok, 2) :=
  C10_theorem netNone stTok "dreadmist" "Arthas" "tok" rfl rfl rfl

theorem fetch_bracket_data_disabled_pure (net : CharNet) (st : CharState)
    (bracket : String) (season : Nat) (resp : FetchResponse) :
    (fetch_bracket_data net st bracket season false resp).2.1 = st ∧
    (fetch_bracket_data net st bracket season false resp).2.2 = 0 := by
  unfold fetch_bracket_data
  cases htok : st.access_token with
  | none => exact ⟨rfl, rfl⟩
  | some t =>
    dsimp only
    by_cases h1 : season < 9 ∧ bracket = "rbg"
    · rw [if_pos h1]; exact ⟨rfl, rfl⟩
    · rw [if_neg h1]
      by_cases h2 : bracket ∉ available_brackets
      · rw [if_pos h2]; exact ⟨rfl, rfl⟩
      · rw [if_neg h2]
        cases resp with
        | timeout => exact ⟨rfl, rfl⟩
        | connectionError => exact ⟨rfl, rfl⟩
        | http status_code body =>
          dsimp only
          by_cases h3 : status_code ≠ 200
          · rw [if_pos h3]; exact ⟨rfl, rfl⟩
          · rw [if_neg h3]
            cases body with
            | empty => exact ⟨rfl, rfl⟩
            | malformed => exact ⟨rfl, rfl⟩
            | parsed data =>
              dsimp only
              by_cases h4 : data.hasError = true
              · rw [if_pos h4]; exact ⟨rfl, rfl⟩
              · rw [if_neg h4, if_neg (by simp)]
                exact ⟨rfl, rfl⟩

theorem fetch_bracket_data_guards (net : CharNet) (st : CharState) (bracket : String)
    (season : Nat) (enrich_data : Bool) (tok : String) (resp : FetchResponse)
    (htok : st.access_token = some tok)
    (hrbg : ¬(season < 9 ∧ bracket = "rbg"))
    (hb : bracket ∈ available_brackets) :
    fetch_bracket_data net st bracket season enrich_data resp =
      match resp with
      | .timeout => (none, st, 0)
      | .connectionError => (none, st, 0)
      | .http status_code body =>
        if status_code ≠ 200 then (none, st, 0)
        else
          match body with
          | .empty => (none, st, 0)
          | .malformed => (none, st, 0)
          | .parsed data =>
            if data.hasError then (none, st, 0)
            else
              if enrich_data ∧ 0 < data.entries.length then
                let r := process_entries_with_character_details net st data.entries
                (some { data with entries := r.1 }, r.2.1, r.2.2)
              else (some data, st, 0) := by
  unfold fetch_bracket_data
  rw [htok]
  dsimp only
  rw [if_neg hrbg, if_neg (not_not_intro hb)]

/-- C4: with enrichment disabled, a successful fetch returns the vendor
payload unchanged (value-equal entries), and — whatever the leaderboard
response was — the client state is untouched and zero character-profile
network calls are issued. -/
theorem C4_theorem (net : CharNet) (st : CharState) (bracket : String) (season : Nat)
    (tok : String) (data : BracketPayload)
    (htok : st.access_token = some tok)
    (hrbg : ¬(season < 9 ∧ bracket = "rbg"))
    (hb : bracket ∈ available_brackets)
    (herr : data.hasError = false) :
    fetch_bracket_data net st bracket season false
        (FetchResponse.http 200 (BodyContent.parsed data)) = (some data, st, 0) ∧
    ∀ resp : FetchResponse,
      (fetch_bracket_data net st bracket season false resp).2.1 = st ∧
      (fetch_bracket_data net st bracket season false resp).2.2 = 0 := by
  constructor
  · rw [fetch_bracket_data_guards net st bracket season false tok _ htok hrbg hb]
    dsimp only
    rw [if_neg (by decide)]
    rw [if_neg (by simp [herr]), if_neg (by simp)]
  · intro resp
    exact fetch_bracket_data_disabled_pure net st bracket season resp

/-- Witness for C4: season 10, bracket 2v2, enrichment off, three entries. -/
theorem C4_witness :
    fetch_bracket_data netNone stTok "2v2" 10 false
        (FetchResponse.http 200 (BodyContent.parsed payload3)) = (some payload3, stTok, 0) ∧
    ∀ resp : FetchResponse,
      (fetch_bracket_data netNone stTok "2v2" 10 false resp).2.1 = stTok ∧
      (fetch_bracket_data netNone stTok "2v2" 10 false resp).2.2 = 0 :=
  C4_theorem netNone stTok "2v2" 10 "tok" payload3 rfl (by decide) (by decide) rfl

/-- C5: every failure of a leaderboard fetch — non-200 status, empty body,
vendor-reported error inside a 200 body, malformed JSON, timeout, or
connection error — yields the absent result `none` (the model is a total
function: in the source every exception is caught inside
`fetch_bracket_data`, so no exception crosses the boundary), while a 200
response whose entries sequence is empty is a success. -/
theorem C5_theorem (net : CharNet) (st : CharState) (bracket : String) (season : Nat)
    (tok : String) (enrich_data : Bool)
    (htok : st.access_token = some tok)
    (hrbg : ¬(season < 9 ∧ bracket = "rbg"))
    (hb : bracket ∈ available_brackets) :
    (∀ (status_code : Nat) (body : BodyContent), status_code ≠ 200 →
      (fetch_bracket_data net st bracket season enrich_data
        (FetchResponse.http status_code body)).1 = none) ∧
    (fetch_bracket_data net st bracket season enrich_data
      (FetchResponse.http 200 BodyContent.empty)).1 = none ∧
    (fetch_bracket_data net st bracket season enrich_data
      (FetchResponse.http 200 BodyContent.malformed)).1 = none ∧
    (∀ data : BracketPayload, data.hasError = true →
      (fetch_bracket_data net st bracket season enrich_data
        (FetchResponse.http 200 (BodyContent.parsed data))).1 = none) ∧
    (fetch_bracket_data net st bracket season enrich_data FetchResponse.timeout).1 = none ∧
    (fetch_bracket_data net st bracket season enrich_data FetchResponse.connectionError).1 =
      none ∧
    (∀ data : BracketPayload, data.hasError = false → data.entries = [] →
      (fetch_bracket_data net st bracket season enrich_data
        (FetchResponse.http 200 (BodyContent.parsed data))).1 = some data) := by
  refine ⟨?_, ?_, ?_, ?_, ?_, ?_, ?_⟩
  · intro status_code body hcode
    rw [fetch_bracket_data_guards net st bracket season enrich_data tok _ htok hrbg hb]
    dsimp only
    rw [if_pos hcode]
  · rw [fetch_bracket_data_guards net st bracket season enrich_data tok _ htok hrbg hb]
    dsimp only
    rw [if_neg (by decide)]
  · rw [fetch_bracket_data_guards net st bracket season enrich_data tok _ htok hrbg hb]
    dsimp only
    rw [if_neg (by decide)]
  · intro data herr
    rw [fetch_bracket_data_guards net st bracket season enrich_data tok _ htok hrbg hb]
    dsimp only
    rw [if_neg (by decide)]
    rw [if_pos herr]
  · rw [fetch_bracket_data_guards net st bracket season enrich_data tok _ htok hrbg hb]
  · rw [fetch_bracket_data_guards net st bracket season enrich_data tok _ htok hrbg hb]
  · intro data herr hempty
    rw [fetch_bracket_data_guards net st bracket season enrich_data tok _ htok hrbg hb]
    dsimp only
    rw [if_neg (by decide)]
    rw [if_neg (by simp [herr]), if_neg (by simp [hempty])]

/-- Witness for C5: season 10, bracket 2v2, enrichment on, over concrete
failing responses and the empty-entries success. -/
theorem C5_witness :
    (fetch_bracket_data netNone stTok "2v2" 10 true
      (FetchResponse.http 500 BodyContent.empty)).1 = none ∧
    (fetch_bracket_data netNone stTok "2v2" 10 true FetchResponse.timeout).1 = none ∧
    (fetch_bracket_data netNone stTok "2v2" 10 true
      (FetchResponse.http 200 (BodyContent.parsed { hasError := true, entries := [] }))).1 =
        none ∧
    (fetch_bracket_data netNone stTok "2v2" 10 true
      (FetchResponse.http 200 (BodyContent.parsed payloadEmpty))).1 = some payloadEmpty :=
  ⟨(C5_theorem netNone stTok "2v2" 10 "tok" true rfl (by decide) (by decide)).1 500
      BodyContent.empty (by decide),
   (C5_theorem netNone stTok "2v2" 10 "tok" true rfl (by decide) (by decide)).2.2.2.2.1,
   (C5_theorem netNone stTok "2v2" 10 "tok" true rfl (by decide) (by decide)).2.2.2.1
      { hasError := true, entries := [] } rfl,
   (C5_theorem netNone stTok "2v2" 10 "tok" true rfl (by decide) (by decide)).2.2.2.2.2.2
      payloadEmpty rfl rfl⟩

theorem process_bracket_list_append (net : CharNet) (resp : String → FetchResponse)
    (save : String → String) (season : Nat) (enrich_data : Bool)
    (l1 l2 : List String) (st : CharState) :
    process_bracket_list net resp save season enrich_data st (l1 ++ l2) =
      ((process_bracket_list net resp save season enrich_data st l1).1 +
        (process_bracket_list net resp save season enrich_data
          (process_bracket_list net resp save season enrich_data st l1).2 l2).1,
       (process_bracket_list net resp save season enrich_data
        (process_bracket_list net resp save season enrich_data st l1).2 l2).2) := by
  induction l1 generalizing st with
  | nil => simp [process_bracket_list]
  | cons b rest ih =>
    simp only [List.cons_append, process_bracket_list, List.append_eq]
    rw [ih]
    simp [Nat.add_assoc]

theorem run_seasons_append (net : CharNet) (resp : Nat → String → FetchResponse)
    (save : Nat → String → String) (selected_brackets : List String) (enrich_data : Bool)
    (sl1 sl2 : List Nat) (st : CharState) :
    run_seasons net resp save selected_brackets enrich_data st (sl1 ++ sl2) =
      ((run_seasons net resp save selected_brackets enrich_data st sl1).1 +
         (run_seasons net resp save selected_brackets enrich_data
           (run_seasons net resp save selected_brackets enrich_data st sl1).2.2 sl2).1,
       (run_seasons net resp save selected_brackets enrich_data st sl1).2.1 +
         (run_seasons net resp save selected_brackets enrich_data
           (run_seasons net resp save selected_brackets enrich_data st sl1).2.2 sl2).2.1,
       (run_seasons net resp save selected_brackets enrich_data
         (run_seasons net resp save selected_brackets enrich_data st sl1).2.2 sl2).2.2) := by
  induction sl1 generalizing st with
  | nil => simp [run_seasons]
  | cons s rest ih =>
    simp only [List.cons_append, run_seasons, List.append_eq]
    rw [ih]
    simp [Nat.add_assoc]

/-- C6: within a run, (1) a selected bracket that is not available for the
season is silently dropped by the filter, leaving the success count (the
whole `process_single_season` outcome) and the attempted count (the filtered
list, whose length `main` adds to `total_possible`) exactly as if it had not
been selected; (2) bracket processing is additive over list concatenation —
every bracket of the list is attempted, with the state threaded through, so
no unit aborts the ones after it; (3) a unit whose fetch fails or whose save
fails contributes 0 to the success count while the remaining brackets are
still processed from the resulting state; (4) the season loop of `main` is
additive over the season list in both tallies, so no season aborts the
following ones. -/
theorem C6_theorem (net : CharNet) (resp : String → FetchResponse)
    (save : String → String) (season : Nat) (enrich_data : Bool) :
    (∀ (b : String) (pre suf : List String) (st : CharState),
      b ∉ get_available_brackets_for_season season →
      seasonBrackets season (pre ++ b :: suf) = seasonBrackets season (pre ++ suf) ∧
      process_single_season net resp save season (pre ++ b :: suf) enrich_data st =
        process_single_season net resp save season (pre ++ suf) enrich_data st) ∧
    (∀ (l1 l2 : List String) (st : CharState),
      process_bracket_list net resp save season enrich_data st (l1 ++ l2) =
        ((process_bracket_list net resp save season enrich_data st l1).1 +
          (process_bracket_list net resp save season enrich_data
            (process_bracket_list net resp save season enrich_data st l1).2 l2).1,
         (process_bracket_list net resp save season enrich_data
          (process_bracket_list net resp save season enrich_data st l1).2 l2).2)) ∧
    (∀ (b : String) (rest : List String) (st : CharState),
      ((fetch_bracket_data net st b season enrich_data (resp b)).1 = none ∨ save b = "") →
      (process_bracket_list net resp save season enrich_data st (b :: rest)).1 =
        (process_bracket_list net resp save season enrich_data
          (fetch_bracket_data net st b season enrich_data (resp b)).2.1 rest).1) ∧
    (∀ (resps : Nat → String → FetchResponse) (saves : Nat → String → String)
       (selected_brackets : List String) (sl1 sl2 : List Nat) (st : CharState),
      run_seasons net resps saves selected_brackets enrich_data st (sl1 ++ sl2) =
        ((run_seasons net resps saves selected_brackets enrich_data st sl1).1 +
           (run_seasons net resps saves selected_brackets enrich_data
             (run_seasons net resps saves selected_brackets enrich_data st sl1).2.2 sl2).1,
         (run_seasons net resps saves selected_brackets enrich_data st sl1).2.1 +
           (run_seasons net resps saves selected_brackets enrich_data
             (run_seasons net resps saves selected_brackets enrich_data st sl1).2.2 sl2).2.1,
         (run_seasons net resps saves selected_brackets enrich_data
           (run_seasons net resps saves selected_brackets enrich_data st sl1).2.2 sl2).2.2)) := by
  refine ⟨?_, ?_, ?_, ?_⟩
  · intro b pre suf st hb
    have hpb : decide (b ∈ get_available_brackets_for_season season) = false :=
      decide_eq_false hb
    have hfilter : seasonBrackets season (pre ++ b :: suf) =
        seasonBrackets season (pre ++ suf) := by
      simp [seasonBrackets, List.filter_append, List.filter_cons, hpb]
    refine ⟨hfilter, ?_⟩
    unfold process_single_season
    rw [hfilter]
  · intro l1 l2 st
    exact process_bracket_list_append net resp save season enrich_data l1 l2 st
  · intro b rest st hfail
    simp only [process_bracket_list]
    rcases hr : (fetch_bracket_data net st b season enrich_data (resp b)).1 with _ | v
    · simp [hr]
    · rcases hfail with hf | hf
      · rw [hr] at hf
        exact absurd hf (by simp)
      · simp [hr, hf]
  · intro resps saves selected_brackets sl1 sl2 st
    exact run_seasons_append net resps saves selected_brackets enrich_data sl1 sl2 st

/-- Witness for C6: season 7, where rbg is unavailable and silently skipped,
and a failing 2v2 unit (its fetch times out and its save fails) that does not
abort the 3v3 unit after it. -/
theorem C6_witness :
    (seasonBrackets 7 (["2v2"] ++ "rbg" :: ["3v3"]) = seasonBrackets 7 (["2v2"] ++ ["3v3"]) ∧
     process_single_season netNone respTimeout saveEmpty 7 (["2v2"] ++ "rbg" :: ["3v3"])
         false stTok =
       process_single_season netNone respTimeout saveEmpty 7 (["2v2"] ++ ["3v3"])
         false stTok) ∧
    (process_bracket_list netNone respTimeout saveEmpty 7 false stTok ("2v2" :: ["3v3"])).1 =
      (process_bracket_list netNone respTimeout saveEmpty 7 false
        (fetch_bracket_data netNone stTok "2v2" 7 false (respTimeout "2v2")).2.1 ["3v3"]).1 :=
  ⟨(C6_theorem netNone respTimeout saveEmpty 7 false).1 "rbg" ["2v2"] ["3v3"] stTok
      (by decide),
   (C6_theorem netNone respTimeout saveEmpty 7 false).2.2.1 "2v2" ["3v3"] stTok
      (Or.inr rfl)⟩

end DumpArena
